import Mathlib

set_option maxRecDepth 16384

/-!
# Verification of the KHR_debug emulation core of `gl-rs`

A shallow embedding of the debug-output emulation layer found in
`src/gl_generator/generators/debug_output/{header.rs, impl.rs}`.

The shared mutable `DebugOutputState` (held in a `RefCell` by the generated
struct) is modelled by explicit state passing: every operation takes a
`DebugOutputState` and returns the updated state.  Invocations of the
registered debug callback are observable effects, so each operation also
returns the list of callback invocations it performed, in order.

Raw pointers to byte buffers are modelled as `List Nat` (the bytes readable
through the pointer); the C `strlen`/`strncpy` used by the Rust code are
modelled on such lists.  Nullable out-parameter pointers are modelled as
`Option` cells holding the pointee's current value.

GL enumerant values (`DEBUG_SOURCE_*`, `DEBUG_TYPE_*`, `DEBUG_SEVERITY_*`,
error codes, `DONT_CARE`) are not defined in the two source files: they come
from the external GL registry, which the spec places out of scope.  They are
modelled here by their standard numeric values from the OpenGL headers; the
code only relies on their being fixed and pairwise distinct.
-/

namespace GlDebug

/-! ## GL enumerant values (external constant table, standard GL values) -/

def NO_ERROR : Nat := 0
def INVALID_ENUM : Nat := 0x0500
def INVALID_VALUE : Nat := 0x0501
def INVALID_OPERATION : Nat := 0x0502
def OUT_OF_MEMORY : Nat := 0x0505
def INVALID_FRAMEBUFFER_OPERATION : Nat := 0x0506

def DONT_CARE : Nat := 0x1100

def DEBUG_SOURCE_API : Nat := 0x8246
def DEBUG_SOURCE_WINDOW_SYSTEM : Nat := 0x8247
def DEBUG_SOURCE_SHADER_COMPILER : Nat := 0x8248
def DEBUG_SOURCE_THIRD_PARTY : Nat := 0x8249
def DEBUG_SOURCE_APPLICATION : Nat := 0x824A
def DEBUG_SOURCE_OTHER : Nat := 0x824B

def DEBUG_TYPE_ERROR : Nat := 0x824C
def DEBUG_TYPE_DEPRECATED_BEHAVIOR : Nat := 0x824D
def DEBUG_TYPE_UNDEFINED_BEHAVIOR : Nat := 0x824E
def DEBUG_TYPE_PORTABILITY : Nat := 0x824F
def DEBUG_TYPE_PERFORMANCE : Nat := 0x8250
def DEBUG_TYPE_OTHER : Nat := 0x8251
def DEBUG_TYPE_MARKER : Nat := 0x8268
def DEBUG_TYPE_PUSH_GROUP : Nat := 0x8269
def DEBUG_TYPE_POP_GROUP : Nat := 0x826A

def DEBUG_SEVERITY_NOTIFICATION : Nat := 0x826B
def DEBUG_SEVERITY_HIGH : Nat := 0x9146
def DEBUG_SEVERITY_MEDIUM : Nat := 0x9147
def DEBUG_SEVERITY_LOW : Nat := 0x9148

/-- From `header.rs`: `static KHR_DEBUG_EMULATOR_MAX_DEBUG_MESSAGE_LENGTH: i32 = 256;` -/
def KHR_DEBUG_EMULATOR_MAX_DEBUG_MESSAGE_LENGTH : Int := 256

/-! ## Byte-buffer primitives (libc memory model on `List Nat`) -/

/-- Bytes of an ASCII Rust string literal (`&str`), as `message.as_bytes()`. -/
def strBytes (s : String) : List Nat := s.toList.map Char.toNat

/-- Model of `libc::strlen`: number of bytes before the first 0 terminator. -/
def strlenBytes (buf : List Nat) : Nat := (buf.takeWhile (fun b => b != 0)).length

/-- Model of `libc::strncpy dst src n`: copy at most `n` bytes of `src` up to
its 0 terminator into the front of `dst`, padding with 0 up to `n` when `src`
is shorter; bytes of `dst` past `n` are untouched. -/
def strncpyBytes (dst src : List Nat) (n : Nat) : List Nat :=
  let copied := (src.takeWhile (fun b => b != 0)).take n
  (copied ++ List.replicate (n - copied.length) 0) ++ dst.drop n

/-! ## Data model (`header.rs`) -/

/-- Rust struct `DebugMessage` of `header.rs`; `buf` is the pointed-to byte buffer. -/
structure DebugMessage where
  source : Nat
  ty : Nat
  id : Nat
  severity : Nat
  length : Int
  buf : List Nat
  deriving Repr, DecidableEq

/-- Rust struct `DebugMessageControlRule` of `header.rs`; `enabled` is a
`GLboolean` (a byte), kept as `Nat` as in the source. -/
structure DebugMessageControlRule where
  source : Nat
  ty : Nat
  severity : Nat
  ids : List Nat
  enabled : Nat
  debug_group : Nat
  deriving Repr, DecidableEq

/-- Rust struct `DebugOutputState` of `header.rs`.  The callback function pointer is
opaque: it is modelled by an abstract token (`Option Nat`), and its
invocations are reported in the operations' callback traces. -/
structure DebugOutputState where
  enabled : Bool
  last_error : Nat
  last_debug_message : Option DebugMessage
  debug_group_number : Nat
  rules : List DebugMessageControlRule
  callback : Option Nat
  user_param : Nat
  deriving Repr, DecidableEq

/-- One synchronous invocation of the registered debug callback, with the
exact argument tuple the source passes:
`callback(source, ty, id, severity, proper_length, buf, state.user_param)`. -/
structure CallbackCall where
  source : Nat
  ty : Nat
  id : Nat
  severity : Nat
  length : Int
  buf : List Nat
  user_param : Nat
  deriving Repr, DecidableEq

/-! ## Validation predicates (`header.rs`) -/

/-- Rust fn `is_valid_severity` of `header.rs`. -/
def is_valid_severity (severity : Nat) : Bool :=
  severity == DEBUG_SEVERITY_HIGH || severity == DEBUG_SEVERITY_MEDIUM ||
  severity == DEBUG_SEVERITY_LOW || severity == DEBUG_SEVERITY_NOTIFICATION

/-- Rust fn `is_valid_type` of `header.rs`. -/
def is_valid_type (ty : Nat) : Bool :=
  ty == DEBUG_TYPE_ERROR || ty == DEBUG_TYPE_DEPRECATED_BEHAVIOR ||
  ty == DEBUG_TYPE_UNDEFINED_BEHAVIOR || ty == DEBUG_TYPE_PERFORMANCE ||
  ty == DEBUG_TYPE_PORTABILITY || ty == DEBUG_TYPE_OTHER ||
  ty == DEBUG_TYPE_MARKER || ty == DEBUG_TYPE_PUSH_GROUP || ty == DEBUG_TYPE_POP_GROUP

/-- Rust fn `is_valid_source` of `header.rs`. -/
def is_valid_source (source : Nat) : Bool :=
  source == DEBUG_SOURCE_API || source == DEBUG_SOURCE_SHADER_COMPILER ||
  source == DEBUG_SOURCE_WINDOW_SYSTEM || source == DEBUG_SOURCE_THIRD_PARTY ||
  source == DEBUG_SOURCE_APPLICATION || source == DEBUG_SOURCE_OTHER

/-! ## Rule matcher (`header.rs` `rule_applies`, `impl.rs` `should_message_get_processed`) -/

/-- Rust fn `rule_applies` of `header.rs`, with its early returns folded into
an if-chain. -/
def rule_applies (rule : DebugMessageControlRule) (source ty id severity : Nat) : Bool :=
  if !rule.ids.isEmpty && !(rule.ids.any (fun rule_id => rule_id == id)) then false
  else if rule.source != DONT_CARE && rule.source != source then false
  else if rule.ty != DONT_CARE && rule.ty != ty then false
  else if rule.severity != DONT_CARE && rule.severity != severity then false
  else true

/-- Rust fn `should_message_get_processed` of `impl.rs`: the
`for … in rules.iter().rev()` loop returning on the first applying rule is the
first hit of `find?` on the reversed rule list. -/
def should_message_get_processed (s : DebugOutputState) (source ty id severity : Nat) : Bool :=
  match s.rules.reverse.find? (fun rule => rule_applies rule source ty id severity) with
  | some rule => rule.enabled == 1
  | none => if severity == DEBUG_SEVERITY_LOW then false else true

/-! ## Error-message string literals of `impl.rs` -/

def MSG_SOURCE_RESTRICTED : String :=
  "invalid enum in glDebugMessageInsert: source has to be GL_DEBUG_SOURCE_APPLICATION or GL_DEBUG_SOURCE_THIRD_PARTY"

def MSG_SEVERITY_INVALID : String :=
  "invalid enum in glDebugMessageInsert: severity is invalid"

def MSG_TYPE_INVALID : String :=
  "invalid enum in glDebugMessageInsert: type is invalid"

def MSG_SOURCE_INVALID : String :=
  "invalid enum in glDebugMessageInsert: source is invalid"

def MSG_TOO_LONG : String :=
  "invalid value in glDebugMessageInsert: message is too long"

def MSG_CONTROL_INVALID : String :=
  "invalid operation in glDebugMessageControl: if an ID is specified, source and type have to be specified as well but severity has to be GL_DONT_CARE"

def MSG_LOG_BUFSIZE : String :=
  "invalid value in glGetDebugMessageLog: bufsize < 0 and messageLog != NULL"

/-! ## Message pipeline (`impl.rs`)

`debug_message_insert_internal` and `insert_api_error` are mutually recursive
in the source (the internal insert reports its own parameter errors through
`insert_api_error`, which feeds the synthesized message back through the
internal insert).  The recursion is totalized by a fuel parameter; the
synthesized messages always have valid enums and length at most 256, so the
real recursion depth is at most 2 and any fuel at least 2 realizes the full
behavior (the fuel-exhausted branch is unreachable from the wrappers below).
-/

/-- Rust fn `debug_message_insert_internal` of `impl.rs`, fueled.  The local
`apiError` is the body of `insert_api_error` (set `last_error`, then insert a
message with fixed source/type/severity and the error code as id). -/
def debug_message_insert_internal_fuel :
    Nat → DebugOutputState → Nat → Nat → Nat → Nat → Int → List Nat →
    DebugOutputState × List CallbackCall
  | 0, s, _, _, _, _, _, _ => (s, [])
  | fuel + 1, s, source, ty, id, severity, length, buf =>
    let apiError := fun (s : DebugOutputState) (err : Nat) (message : List Nat) =>
      debug_message_insert_internal_fuel fuel { s with last_error := err }
        DEBUG_SOURCE_API DEBUG_TYPE_ERROR err DEBUG_SEVERITY_HIGH
        (message.length : Int) message
    if !s.enabled then (s, [])
    else if !is_valid_severity severity then
      apiError s INVALID_ENUM (strBytes MSG_SEVERITY_INVALID)
    else if !is_valid_type ty then
      apiError s INVALID_ENUM (strBytes MSG_TYPE_INVALID)
    else if !is_valid_source source then
      apiError s INVALID_ENUM (strBytes MSG_SOURCE_INVALID)
    else
      let proper_length : Int := if length < 0 then (strlenBytes buf : Int) else length
      if proper_length > KHR_DEBUG_EMULATOR_MAX_DEBUG_MESSAGE_LENGTH then
        apiError s INVALID_VALUE (strBytes MSG_TOO_LONG)
      else if !(should_message_get_processed s source ty id severity) then (s, [])
      else
        match s.callback with
        | some _ =>
          (s, [⟨source, ty, id, severity, proper_length, buf, s.user_param⟩])
        | none =>
          ({ s with last_debug_message := some ⟨source, ty, id, severity, length, buf⟩ }, [])

/-- Rust fn `insert_api_error` of `impl.rs`: record the synthetic error code in
`last_error`, then feed a fixed-shape debug message through the internal
insert.  The message text is passed with its explicit byte length
(`message.len() as i32`). -/
def insert_api_error (s : DebugOutputState) (err : Nat) (message : List Nat) :
    DebugOutputState × List CallbackCall :=
  debug_message_insert_internal_fuel 4 { s with last_error := err }
    DEBUG_SOURCE_API DEBUG_TYPE_ERROR err DEBUG_SEVERITY_HIGH
    (message.length : Int) message

/-- Rust fn `debug_message_insert_internal` of `impl.rs` at adequate fuel. -/
def debug_message_insert_internal (s : DebugOutputState) (source ty id severity : Nat)
    (length : Int) (buf : List Nat) : DebugOutputState × List CallbackCall :=
  debug_message_insert_internal_fuel 4 s source ty id severity length buf

/-- Rust fn `fallback_debug_message_insert` of `impl.rs` (the application-facing
`glDebugMessageInsert` entry point). -/
def fallback_debug_message_insert (s : DebugOutputState) (source ty id severity : Nat)
    (length : Int) (buf : List Nat) : DebugOutputState × List CallbackCall :=
  if !s.enabled then (s, [])
  else if source != DEBUG_SOURCE_APPLICATION && source != DEBUG_SOURCE_THIRD_PARTY then
    insert_api_error s INVALID_ENUM (strBytes MSG_SOURCE_RESTRICTED)
  else
    debug_message_insert_internal s source ty id severity length buf

/-- Rust fn `fallback_debug_message_control` of `impl.rs`.  The raw `ids`
pointer together with `count` is modelled by the readable buffer `idsBuf`, of
which `slice::from_raw_parts(ids, count as usize)` reads the first
`count.toNat` elements. -/
def fallback_debug_message_control (s : DebugOutputState) (source ty severity : Nat)
    (count : Int) (idsBuf : List Nat) (enabled : Nat) :
    DebugOutputState × List CallbackCall :=
  let r :=
    if count != 0 && (source == DONT_CARE || ty == DONT_CARE || severity != DONT_CARE) then
      insert_api_error s INVALID_OPERATION (strBytes MSG_CONTROL_INVALID)
    else (s, [])
  let ids := idsBuf.take count.toNat
  let debug_group := r.1.debug_group_number
  ({ r.1 with rules := r.1.rules ++ [⟨source, ty, severity, ids, enabled, debug_group⟩] }, r.2)

/-- Rust fn `fallback_get_error` of `impl.rs`; `original` is the value returned
by the one call to the native `glGetError`. -/
def fallback_get_error (s : DebugOutputState) (original : Nat) :
    DebugOutputState × Nat :=
  let current_error := if original == NO_ERROR then s.last_error else original
  ({ s with last_error := NO_ERROR }, current_error)

/-- Rust fn `fallback_debug_message_callback` of `impl.rs`: store the callback
token and its user context. -/
def fallback_debug_message_callback (s : DebugOutputState) (callback : Nat)
    (user_param : Nat) : DebugOutputState :=
  { s with callback := some callback, user_param := user_param }

/-- The nullable out-parameter pointers of `glGetDebugMessageLog`: `none` is a
null pointer, `some v` a pointer to a cell currently holding `v`. -/
structure LogOutputs where
  sources : Option Nat
  types : Option Nat
  ids : Option Nat
  severities : Option Nat
  lengths : Option Int
  message_log : Option (List Nat)
  deriving Repr, DecidableEq

/-- Rust fn `fallback_get_debug_message_log` of `impl.rs`.  Returns the updated
state, the out-cells, the `GLuint` result, and the callback trace of the error
path.  Lines 154-158 of `impl.rs` read each non-null out-cell into a local
variable `v` and assign `message.*` to that local, so the pointees of
`sources`, `types`, `ids`, `severities`, `lengths` are never written; lines
168-169 likewise assign the terminator to a local copy.  Only `strncpy`
actually writes through a pointer, which this model reflects. -/
def fallback_get_debug_message_log (s : DebugOutputState) (count : Nat) (bufsize : Int)
    (outs : LogOutputs) : DebugOutputState × LogOutputs × Nat × List CallbackCall :=
  if bufsize < 0 && !outs.message_log.isNone then
    let r := insert_api_error s INVALID_VALUE (strBytes MSG_LOG_BUFSIZE)
    (r.1, outs, 0, r.2)
  else if count == 0 then (s, outs, 0, [])
  else
    match s.last_debug_message with
    | some message =>
      let s := { s with last_debug_message := none }
      if bufsize ≤ message.length then
        (s, outs, 0, [])
      else
        let outs := { outs with
          message_log := outs.message_log.map
            (fun dst => strncpyBytes dst message.buf bufsize.toNat) }
        (s, outs, 1, [])
    | none => (s, outs, 0, [])

/-- Rust fn `get_error_string` of `header.rs`: a fixed phrase per known error
code, followed by the call name. -/
def get_error_string (error_code : Nat) (name : List Nat) : List Nat :=
  let part :=
    if error_code == INVALID_ENUM then strBytes "invalid enum"
    else if error_code == INVALID_VALUE then strBytes "invalid value"
    else if error_code == INVALID_OPERATION then strBytes "invalid operation"
    else if error_code == INVALID_FRAMEBUFFER_OPERATION then strBytes "invalid framebuffer operation"
    else if error_code == OUT_OF_MEMORY then strBytes "out of memory"
    else if error_code == NO_ERROR then strBytes "no error"
    else strBytes "unknown error"
  part ++ strBytes " in " ++ name

/-- Rust fn `check_error` of `impl.rs`; `native` is the value returned by the
one call to the original (non-overridden) `glGetError`. -/
def check_error (s : DebugOutputState) (native : Nat) (name : List Nat) :
    DebugOutputState × List CallbackCall :=
  if native != NO_ERROR then
    insert_api_error s native (get_error_string native name)
  else (s, [])

/-- Rust fn `on_fn_called` of `impl.rs`, the per-call hook. -/
def on_fn_called (s : DebugOutputState) (native : Nat) (name : List Nat) :
    DebugOutputState × List CallbackCall :=
  check_error s native name


/-- Spec-side matching predicate, transcribed from the claim's words: a rule
applies iff its ids set is empty or contains the id, and each of its
source/type/severity is the wildcard or equals the message's value. -/
def ruleAppliesSpec (rule : DebugMessageControlRule) (source ty id severity : Nat) : Prop :=
  (rule.ids = [] ∨ id ∈ rule.ids) ∧
  (rule.source = DONT_CARE ∨ rule.source = source) ∧
  (rule.ty = DONT_CARE ∨ rule.ty = ty) ∧
  (rule.severity = DONT_CARE ∨ rule.severity = severity)

instance (rule : DebugMessageControlRule) (source ty id severity : Nat) :
    Decidable (ruleAppliesSpec rule source ty id severity) := by
  unfold ruleAppliesSpec; infer_instance


/-- The freshly loaded state (`load_with` in `debug_struct_gen.rs`): enabled,
no pending error, empty log, no rules, no callback. -/
def initState : DebugOutputState :=
  ⟨true, NO_ERROR, none, 0, [], none, 0⟩

/-- A sample stored message: "hello" from the application, id 7, length 5. -/
def sampleMessage : DebugMessage :=
  ⟨DEBUG_SOURCE_APPLICATION, DEBUG_TYPE_ERROR, 7, DEBUG_SEVERITY_HIGH, 5,
   [104, 101, 108, 108, 111, 0]⟩

/-- Sample non-null out-cells for `glGetDebugMessageLog`, all initialized to
values distinct from `sampleMessage`'s fields. -/
def sampleOutputs : LogOutputs :=
  ⟨some 0, some 0, some 0, some 0, some 0, some (List.replicate 10 1)⟩


/-- A sample wrapped-call name for the per-call error interceptor. -/
def SAMPLE_CALL_NAME : String := "glFoo"

end GlDebug

namespace GlDebug


/-- When the master switch is off the internal insert is a silent no-op. -/
theorem insert_internal_fuel_disabled (fuel : Nat) (s : DebugOutputState)
    (source ty id severity : Nat) (length : Int) (buf : List Nat)
    (hen : s.enabled = false) :
    debug_message_insert_internal_fuel fuel s source ty id severity length buf = (s, []) := by
  cases fuel with
  | zero => rfl
  | succ n => simp [debug_message_insert_internal_fuel, hen]

/-- Unfolding of the internal insert on a message that passes validation and
the length check: only the filter decision and the callback registration
matter. -/
theorem insert_internal_fuel_valid (fuel : Nat) (s : DebugOutputState)
    (source ty id severity : Nat) (length : Int) (buf : List Nat)
    (hsev : is_valid_severity severity = true)
    (hty : is_valid_type ty = true)
    (hsrc : is_valid_source source = true)
    (hlen : (if length < 0 then (strlenBytes buf : Int) else length) ≤
      KHR_DEBUG_EMULATOR_MAX_DEBUG_MESSAGE_LENGTH) :
    debug_message_insert_internal_fuel (fuel + 1) s source ty id severity length buf =
      if s.enabled = false then (s, [])
      else if should_message_get_processed s source ty id severity = false then (s, [])
      else
        match s.callback with
        | some _ => (s, [⟨source, ty, id, severity,
            if length < 0 then (strlenBytes buf : Int) else length, buf, s.user_param⟩])
        | none => ({ s with last_debug_message := some ⟨source, ty, id, severity, length, buf⟩ }, []) := by
  cases hen : s.enabled with
  | false => simp [debug_message_insert_internal_fuel, hen]
  | true =>
    cases hcb : s.callback with
    | none =>
      cases hsp : should_message_get_processed s source ty id severity with
      | false =>
        simp [debug_message_insert_internal_fuel, hen, hsev, hty, hsrc, hsp, hcb,
          not_lt.mpr hlen]
      | true =>
        simp [debug_message_insert_internal_fuel, hen, hsev, hty, hsrc, hsp, hcb,
          not_lt.mpr hlen]
    | some cb =>
      cases hsp : should_message_get_processed s source ty id severity with
      | false =>
        simp [debug_message_insert_internal_fuel, hen, hsev, hty, hsrc, hsp, hcb,
          not_lt.mpr hlen]
      | true =>
        simp [debug_message_insert_internal_fuel, hen, hsev, hty, hsrc, hsp, hcb,
          not_lt.mpr hlen]


/-- Behavior of `insert_api_error` on a message text of at most 256 bytes
(every literal it is called with qualifies): the error code lands in
`last_error`, and the synthesized message — fixed source/type/severity, id the
error code — follows the ordinary dispatch path. -/
theorem insert_api_error_valid (s : DebugOutputState) (err : Nat) (message : List Nat)
    (hlen : (message.length : Int) ≤ KHR_DEBUG_EMULATOR_MAX_DEBUG_MESSAGE_LENGTH) :
    insert_api_error s err message =
      (if s.enabled = false then ({ s with last_error := err }, [])
       else if should_message_get_processed { s with last_error := err }
           DEBUG_SOURCE_API DEBUG_TYPE_ERROR err DEBUG_SEVERITY_HIGH = false then
         ({ s with last_error := err }, [])
       else
         match s.callback with
         | some _ =>
           ({ s with last_error := err },
            [⟨DEBUG_SOURCE_API, DEBUG_TYPE_ERROR, err, DEBUG_SEVERITY_HIGH,
              (message.length : Int), message, s.user_param⟩])
         | none =>
           ({ s with
              last_error := err,
              last_debug_message := some ⟨DEBUG_SOURCE_API, DEBUG_TYPE_ERROR, err,
                DEBUG_SEVERITY_HIGH, (message.length : Int), message⟩ }, [])) := by
  have h := insert_internal_fuel_valid 3 { s with last_error := err }
    DEBUG_SOURCE_API DEBUG_TYPE_ERROR err DEBUG_SEVERITY_HIGH
    (message.length : Int) message (by decide) (by decide) (by decide)
    (by simpa using hlen)
  have hiflen : (if (message.length : Int) < 0 then (strlenBytes message : Int)
      else (message.length : Int)) = (message.length : Int) := by
    simp
  rw [insert_api_error]
  rw [h]
  simp only [hiflen]

/-- Frame of `insert_api_error` for short messages: everything except
`last_error`, the log slot and the emitted callback trace is untouched, and
the log slot and trace can only pick up the synthesized message itself. -/
theorem insert_api_error_frame (s : DebugOutputState) (err : Nat) (message : List Nat)
    (hlen : (message.length : Int) ≤ KHR_DEBUG_EMULATOR_MAX_DEBUG_MESSAGE_LENGTH) :
    (insert_api_error s err message).1.last_error = err ∧
    (insert_api_error s err message).1.rules = s.rules ∧
    (insert_api_error s err message).1.debug_group_number = s.debug_group_number ∧
    (insert_api_error s err message).1.callback = s.callback ∧
    (insert_api_error s err message).1.user_param = s.user_param ∧
    (insert_api_error s err message).1.enabled = s.enabled ∧
    ((insert_api_error s err message).1.last_debug_message = s.last_debug_message ∨
      (insert_api_error s err message).1.last_debug_message =
        some ⟨DEBUG_SOURCE_API, DEBUG_TYPE_ERROR, err, DEBUG_SEVERITY_HIGH,
          (message.length : Int), message⟩) ∧
    ((insert_api_error s err message).2 = [] ∨
      (insert_api_error s err message).2 =
        [⟨DEBUG_SOURCE_API, DEBUG_TYPE_ERROR, err, DEBUG_SEVERITY_HIGH,
          (message.length : Int), message, s.user_param⟩]) := by
  rw [insert_api_error_valid s err message hlen]
  split
  · simp
  · split
    · simp
    · cases hcb : s.callback with
      | none => simp [hcb]
      | some cb => simp [hcb]


/-- The code's `rule_applies` decides the spec-side predicate. -/
theorem rule_applies_eq_spec (rule : DebugMessageControlRule) (source ty id severity : Nat) :
    rule_applies rule source ty id severity =
      decide (ruleAppliesSpec rule source ty id severity) := by
  unfold rule_applies ruleAppliesSpec
  by_cases h1 : rule.ids = [] ∨ id ∈ rule.ids <;>
  by_cases h2 : rule.source = DONT_CARE ∨ rule.source = source <;>
  by_cases h3 : rule.ty = DONT_CARE ∨ rule.ty = ty <;>
  by_cases h4 : rule.severity = DONT_CARE ∨ rule.severity = severity <;>
  [skip; skip; skip; skip; skip; skip; skip; skip; skip; skip; skip; skip; skip; skip; skip; skip] <;>
  push_neg at h1 h2 h3 h4 <;>
  simp_all [List.isEmpty_iff, List.any_eq_true, beq_iff_eq, bne_iff_ne]


/-- Effects of `insert_api_error` (short message): the error code is recorded,
and only the synthesized message itself — source fixed to the API — can reach
the callback or the log slot. -/
theorem insert_api_error_effects (s : DebugOutputState) (err : Nat) (message : List Nat)
    (hlen : (message.length : Int) ≤ KHR_DEBUG_EMULATOR_MAX_DEBUG_MESSAGE_LENGTH) :
    (insert_api_error s err message).1.last_error = err ∧
    (∀ c ∈ (insert_api_error s err message).2,
      c.source = DEBUG_SOURCE_API ∧ c.buf = message) ∧
    ((insert_api_error s err message).1.last_debug_message = s.last_debug_message ∨
      ∃ m, (insert_api_error s err message).1.last_debug_message = some m ∧
        m.source = DEBUG_SOURCE_API ∧ m.buf = message) := by
  obtain ⟨h1, _, _, _, _, _, hlog, htr⟩ := insert_api_error_frame s err message hlen
  refine ⟨h1, ?_, ?_⟩
  · intro c hc
    rcases htr with h | h
    · rw [h] at hc
      cases hc
    · rw [h] at hc
      rcases List.mem_singleton.mp hc with rfl
      exact ⟨rfl, rfl⟩
  · rcases hlog with h | h
    · exact Or.inl h
    · exact Or.inr ⟨_, h, rfl, rfl⟩

/-- One unfolding step of the internal insert in the over-long case: it
reduces to the nested insertion of the fixed "message is too long" error. -/
theorem insert_internal_fuel_overlong (fuel : Nat) (s : DebugOutputState)
    (source ty id severity : Nat) (length : Int) (buf : List Nat)
    (hen : s.enabled = true)
    (hsev : is_valid_severity severity = true)
    (hty : is_valid_type ty = true)
    (hsrc : is_valid_source source = true)
    (hlen : KHR_DEBUG_EMULATOR_MAX_DEBUG_MESSAGE_LENGTH <
      (if length < 0 then (strlenBytes buf : Int) else length)) :
    debug_message_insert_internal_fuel (fuel + 1) s source ty id severity length buf =
      debug_message_insert_internal_fuel fuel { s with last_error := INVALID_VALUE }
        DEBUG_SOURCE_API DEBUG_TYPE_ERROR INVALID_VALUE DEBUG_SEVERITY_HIGH
        ((strBytes MSG_TOO_LONG).length : Int) (strBytes MSG_TOO_LONG) := by
  simp [debug_message_insert_internal_fuel, hen, hsev, hty, hsrc, hlen]

/-- In the over-long case the internal insert coincides with
`insert_api_error INVALID_VALUE` on the fixed message text. -/
theorem insert_internal_overlong_eq (s : DebugOutputState)
    (source ty id severity : Nat) (length : Int) (buf : List Nat)
    (hen : s.enabled = true)
    (hsev : is_valid_severity severity = true)
    (hty : is_valid_type ty = true)
    (hsrc : is_valid_source source = true)
    (hlen : KHR_DEBUG_EMULATOR_MAX_DEBUG_MESSAGE_LENGTH <
      (if length < 0 then (strlenBytes buf : Int) else length)) :
    debug_message_insert_internal s source ty id severity length buf =
      insert_api_error s INVALID_VALUE (strBytes MSG_TOO_LONG) := by
  unfold debug_message_insert_internal insert_api_error
  rw [show (4 : Nat) = 3 + 1 from rfl,
    insert_internal_fuel_overlong 3 s source ty id severity length buf hen hsev hty hsrc hlen]
  rw [insert_internal_fuel_valid 2 _ _ _ _ _ _ _ (by decide) (by decide) (by decide) (by decide),
    insert_internal_fuel_valid 3 _ _ _ _ _ _ _ (by decide) (by decide) (by decide) (by decide)]


/-- When the emulation is disabled, `insert_api_error` still records the error
code but the synthesized message goes nowhere. -/
theorem insert_api_error_disabled (s : DebugOutputState) (err : Nat) (message : List Nat)
    (hen : s.enabled = false) :
    insert_api_error s err message = ({ s with last_error := err }, []) := by
  unfold insert_api_error
  exact insert_internal_fuel_disabled 4 _ _ _ _ _ _ _ (by simpa using hen)

/-- C1: `shouldProcess` scans the rules from newest to oldest and returns the
`enabled` flag of the first rule to which the spec's matching predicate
applies (ids empty or containing the id; source, type and severity each
wildcard or equal to the message's value); with no applicable rule it returns
false exactly for severity "low". -/
theorem shouldProcess_scans_newest_first (s : DebugOutputState)
    (source ty id severity : Nat) :
    should_message_get_processed s source ty id severity =
      (match s.rules.reverse.find?
          (fun rule => decide (ruleAppliesSpec rule source ty id severity)) with
        | some rule => rule.enabled == 1
        | none => decide (severity ≠ DEBUG_SEVERITY_LOW)) := by
  unfold should_message_get_processed
  have hfind : s.rules.reverse.find? (fun rule => rule_applies rule source ty id severity) =
      s.rules.reverse.find?
        (fun rule => decide (ruleAppliesSpec rule source ty id severity)) := by
    congr 1
    funext rule
    exact rule_applies_eq_spec rule source ty id severity
  rw [hfind]
  cases s.rules.reverse.find?
      (fun rule => decide (ruleAppliesSpec rule source ty id severity)) with
  | none =>
    by_cases h : severity = DEBUG_SEVERITY_LOW <;> simp [h]
  | some rule => rfl

/-- C2 (code bug): inserting with the length sentinel -1 on the buffer
"ab" (terminated, content length 2) dispatches the same resolved length 2 to the
callback as an explicit length of 2 does, but the message recorded in the log
slot keeps the raw parameter: length -1 instead of 2 (impl.rs line 112 stores
`length`, contradicting the comment at line 86 that stored messages always
carry the resolved character count). -/
theorem insert_sentinel_stored_length_mismatch :
    strlenBytes [97, 98, 0] = 2 ∧
    ((debug_message_insert_internal initState DEBUG_SOURCE_APPLICATION DEBUG_TYPE_OTHER 1
        DEBUG_SEVERITY_HIGH (-1) [97, 98, 0]).1.last_debug_message.map DebugMessage.length =
      some (-1)) ∧
    ((debug_message_insert_internal initState DEBUG_SOURCE_APPLICATION DEBUG_TYPE_OTHER 1
        DEBUG_SEVERITY_HIGH 2 [97, 98, 0]).1.last_debug_message.map DebugMessage.length =
      some 2) ∧
    ((debug_message_insert_internal { initState with callback := some 7, user_param := 42 }
        DEBUG_SOURCE_APPLICATION DEBUG_TYPE_OTHER 1 DEBUG_SEVERITY_HIGH (-1)
        [97, 98, 0]).2.map CallbackCall.length = [2]) ∧
    ((debug_message_insert_internal { initState with callback := some 7, user_param := 42 }
        DEBUG_SOURCE_APPLICATION DEBUG_TYPE_OTHER 1 DEBUG_SEVERITY_HIGH 2
        [97, 98, 0]).2.map CallbackCall.length = [2]) := by
  decide

/-- C6: `getLastError` returns the native result when it is not "no error" and
`state.lastError` otherwise, clears `state.lastError` in both cases, and a
second call with a quiet native query therefore returns "no error". -/
theorem get_error_clears_and_surfaces_once (s : DebugOutputState) (native : Nat) :
    (fallback_get_error s native).2 =
      (if native = NO_ERROR then s.last_error else native) ∧
    (fallback_get_error s native).1 = { s with last_error := NO_ERROR } ∧
    (fallback_get_error (fallback_get_error s native).1 NO_ERROR).2 = NO_ERROR := by
  refine ⟨?_, rfl, rfl⟩
  by_cases h : native = NO_ERROR <;> simp [fallback_get_error, h]


/-- C3: an insert through the internal pipeline whose resolved effective
length exceeds 256 records an "invalid value" synthetic error; the over-long
message itself never reaches the callback or the log slot — anything that does
reach them during the call is the fixed "message is too long" text. -/
theorem overlong_insert_rejected (s : DebugOutputState) (source ty id severity : Nat)
    (length : Int) (buf : List Nat)
    (hen : s.enabled = true)
    (hsev : is_valid_severity severity = true)
    (hty : is_valid_type ty = true)
    (hsrc : is_valid_source source = true)
    (hlen : KHR_DEBUG_EMULATOR_MAX_DEBUG_MESSAGE_LENGTH <
      (if length < 0 then (strlenBytes buf : Int) else length)) :
    (debug_message_insert_internal s source ty id severity length buf).1.last_error =
      INVALID_VALUE ∧
    (∀ c ∈ (debug_message_insert_internal s source ty id severity length buf).2,
      c.source = DEBUG_SOURCE_API ∧ c.buf = strBytes MSG_TOO_LONG) ∧
    ((debug_message_insert_internal s source ty id severity length buf).1.last_debug_message
        = s.last_debug_message ∨
      ∃ m, (debug_message_insert_internal s source ty id severity
          length buf).1.last_debug_message = some m ∧
        m.source = DEBUG_SOURCE_API ∧ m.buf = strBytes MSG_TOO_LONG) := by
  rw [insert_internal_overlong_eq s source ty id severity length buf hen hsev hty hsrc hlen]
  exact insert_api_error_effects s INVALID_VALUE (strBytes MSG_TOO_LONG) (by decide)

/-- C3 witness: a 300-byte message from the application is rejected with
INVALID_VALUE and does not reach the (empty) log slot. -/
theorem overlong_insert_rejected_witness :
    (debug_message_insert_internal initState DEBUG_SOURCE_APPLICATION DEBUG_TYPE_OTHER 5
        DEBUG_SEVERITY_HIGH 300 (List.replicate 300 97)).1.last_error = INVALID_VALUE ∧
    (∀ c ∈ (debug_message_insert_internal initState DEBUG_SOURCE_APPLICATION DEBUG_TYPE_OTHER 5
        DEBUG_SEVERITY_HIGH 300 (List.replicate 300 97)).2,
      c.source = DEBUG_SOURCE_API ∧ c.buf = strBytes MSG_TOO_LONG) ∧
    ((debug_message_insert_internal initState DEBUG_SOURCE_APPLICATION DEBUG_TYPE_OTHER 5
        DEBUG_SEVERITY_HIGH 300 (List.replicate 300 97)).1.last_debug_message =
        initState.last_debug_message ∨
      ∃ m, (debug_message_insert_internal initState DEBUG_SOURCE_APPLICATION DEBUG_TYPE_OTHER 5
          DEBUG_SEVERITY_HIGH 300 (List.replicate 300 97)).1.last_debug_message = some m ∧
        m.source = DEBUG_SOURCE_API ∧ m.buf = strBytes MSG_TOO_LONG) :=
  overlong_insert_rejected initState DEBUG_SOURCE_APPLICATION DEBUG_TYPE_OTHER 5
    DEBUG_SEVERITY_HIGH 300 (List.replicate 300 97) rfl (by decide) (by decide) (by decide)
    (by decide)

/-- C4: a control request with a non-empty id list whose source or type is the
wildcard, or whose severity is not the wildcard, records an "invalid
operation" synthetic error, yet the rule — tagged with the current debug-group
number — is still appended to the end of the rule list. -/
theorem control_invalid_shape_still_registers (s : DebugOutputState)
    (source ty severity : Nat) (count : Int) (idsBuf : List Nat) (enabled : Nat)
    (hcount : count ≠ 0)
    (hshape : source = DONT_CARE ∨ ty = DONT_CARE ∨ severity ≠ DONT_CARE) :
    (fallback_debug_message_control s source ty severity count idsBuf enabled).1.last_error =
      INVALID_OPERATION ∧
    (fallback_debug_message_control s source ty severity count idsBuf enabled).1.rules =
      s.rules ++ [⟨source, ty, severity, idsBuf.take count.toNat, enabled,
        s.debug_group_number⟩] := by
  have hcond : (count != 0 &&
      (source == DONT_CARE || ty == DONT_CARE || severity != DONT_CARE)) = true := by
    rcases hshape with h | h | h <;> simp [hcount, h]
  obtain ⟨h1, h2, h3, _⟩ :=
    insert_api_error_frame s INVALID_OPERATION (strBytes MSG_CONTROL_INVALID) (by decide)
  unfold fallback_debug_message_control
  rw [hcond]
  simp only [if_true]
  exact ⟨h1, by rw [h2, h3]⟩

/-- C4 witness: an id-scoped rule with wildcard source is reported as an
invalid operation but still registered. -/
theorem control_invalid_shape_still_registers_witness :
    (fallback_debug_message_control initState DONT_CARE DEBUG_TYPE_OTHER DONT_CARE 1
      [9] 1).1.last_error = INVALID_OPERATION ∧
    (fallback_debug_message_control initState DONT_CARE DEBUG_TYPE_OTHER DONT_CARE 1
      [9] 1).1.rules =
      initState.rules ++ [⟨DONT_CARE, DEBUG_TYPE_OTHER, DONT_CARE, [9], 1, 0⟩] :=
  control_invalid_shape_still_registers initState DONT_CARE DEBUG_TYPE_OTHER DONT_CARE 1
    [9] 1 (by decide) (Or.inl rfl)

/-- C5: with the emulation enabled, the application-facing insert with a
source that is neither "application" nor "third-party" records an "invalid
enum" synthetic error, and the rejected message itself reaches neither the log
slot nor the callback — only the fixed restriction text can. -/
theorem user_insert_bad_source_rejected (s : DebugOutputState)
    (source ty id severity : Nat) (length : Int) (buf : List Nat)
    (hen : s.enabled = true)
    (h1 : source ≠ DEBUG_SOURCE_APPLICATION)
    (h2 : source ≠ DEBUG_SOURCE_THIRD_PARTY) :
    (fallback_debug_message_insert s source ty id severity length buf).1.last_error =
      INVALID_ENUM ∧
    (∀ c ∈ (fallback_debug_message_insert s source ty id severity length buf).2,
      c.source = DEBUG_SOURCE_API ∧ c.buf = strBytes MSG_SOURCE_RESTRICTED) ∧
    ((fallback_debug_message_insert s source ty id severity length buf).1.last_debug_message
        = s.last_debug_message ∨
      ∃ m, (fallback_debug_message_insert s source ty id severity
          length buf).1.last_debug_message = some m ∧
        m.source = DEBUG_SOURCE_API ∧ m.buf = strBytes MSG_SOURCE_RESTRICTED) := by
  have heq : fallback_debug_message_insert s source ty id severity length buf =
      insert_api_error s INVALID_ENUM (strBytes MSG_SOURCE_RESTRICTED) := by
    unfold fallback_debug_message_insert
    simp [hen, h1, h2]
  rw [heq]
  exact insert_api_error_effects s INVALID_ENUM (strBytes MSG_SOURCE_RESTRICTED) (by decide)

/-- C5 witness: a "window-system" message through the user-facing insert is
rejected with INVALID_ENUM and the (empty) log slot stays empty. -/
theorem user_insert_bad_source_rejected_witness :
    (fallback_debug_message_insert initState DEBUG_SOURCE_WINDOW_SYSTEM DEBUG_TYPE_OTHER 3
        DEBUG_SEVERITY_MEDIUM 2 [97, 98]).1.last_error = INVALID_ENUM ∧
    (∀ c ∈ (fallback_debug_message_insert initState DEBUG_SOURCE_WINDOW_SYSTEM DEBUG_TYPE_OTHER 3
        DEBUG_SEVERITY_MEDIUM 2 [97, 98]).2,
      c.source = DEBUG_SOURCE_API ∧ c.buf = strBytes MSG_SOURCE_RESTRICTED) ∧
    ((fallback_debug_message_insert initState DEBUG_SOURCE_WINDOW_SYSTEM DEBUG_TYPE_OTHER 3
        DEBUG_SEVERITY_MEDIUM 2 [97, 98]).1.last_debug_message =
        initState.last_debug_message ∨
      ∃ m, (fallback_debug_message_insert initState DEBUG_SOURCE_WINDOW_SYSTEM DEBUG_TYPE_OTHER 3
          DEBUG_SEVERITY_MEDIUM 2 [97, 98]).1.last_debug_message = some m ∧
        m.source = DEBUG_SOURCE_API ∧ m.buf = strBytes MSG_SOURCE_RESTRICTED) :=
  user_insert_bad_source_rejected initState DEBUG_SOURCE_WINDOW_SYSTEM DEBUG_TYPE_OTHER 3
    DEBUG_SEVERITY_MEDIUM 2 [97, 98] rfl (by decide) (by decide)


/-- C7 (code bug): draining an occupied log slot with an ample buffer returns
1 and copies the text (terminated), but the type/source/id/severity/length
out-cells keep their prior values: impl.rs lines 154-158 read each pointee
into a local variable and assign the message field to that local, never
writing through the caller's pointers (the terminator store at lines 168-169
is likewise dead). -/
theorem log_drain_outputs_never_written :
    fallback_get_debug_message_log
        { initState with last_debug_message := some sampleMessage } 1 10 sampleOutputs =
      (initState,
       { sampleOutputs with message_log := some [104, 101, 108, 108, 111, 0, 0, 0, 0, 0] },
       1, []) := by
  decide

/-- C8 counterexample: with an occupied slot, maxCount 1 and bufferCapacity -1
(which is ≤ the stored length 5) while the text pointer is non-null, the code
does record a synthetic error (the claim says lastError is untouched) and the
log slot is still occupied afterward (the claim says it is empty). -/
theorem log_drain_insufficient_counterexample :
    ({ initState with last_debug_message := some sampleMessage } :
        DebugOutputState).last_debug_message = some sampleMessage ∧
    (-1 : Int) ≤ sampleMessage.length ∧
    ¬ ((fallback_get_debug_message_log
        { initState with last_debug_message := some sampleMessage } 1 (-1)
        sampleOutputs).1.last_error =
      ({ initState with last_debug_message := some sampleMessage } :
        DebugOutputState).last_error) ∧
    ¬ ((fallback_get_debug_message_log
        { initState with last_debug_message := some sampleMessage } 1 (-1)
        sampleOutputs).1.last_debug_message = none) := by
  decide

/-- C8 (amended): for drainLog with an occupied slot, maxCount at least 1, a
bufferCapacity that is non-negative (or a null text pointer) yet at most the
stored length, the call returns 0 and the only state change is that the slot
is emptied: no error is recorded, the message is not re-queued, the out-cells
are untouched and no callback runs. -/
theorem log_drain_insufficient_buffer (s : DebugOutputState) (count : Nat)
    (bufsize : Int) (outs : LogOutputs) (m : DebugMessage)
    (hm : s.last_debug_message = some m)
    (hb : 0 ≤ bufsize ∨ outs.message_log = none)
    (hcount : count ≠ 0)
    (hlen : bufsize ≤ m.length) :
    fallback_get_debug_message_log s count bufsize outs =
      ({ s with last_debug_message := none }, outs, 0, []) := by
  have hc1 : (bufsize < 0 && !outs.message_log.isNone) = false := by
    rcases hb with h | h
    · simp [not_lt.mpr h]
    · simp [h]
  have hc2 : (count == 0) = false := by simpa using hcount
  unfold fallback_get_debug_message_log
  rw [hc1, hc2]
  simp [hm, hlen]

/-- C8 witness: stored length 5, bufferCapacity 3: returns 0, no error, slot
emptied, outputs untouched. -/
theorem log_drain_insufficient_buffer_witness :
    fallback_get_debug_message_log
        { initState with last_debug_message := some sampleMessage } 1 3 sampleOutputs =
      (initState, sampleOutputs, 0, []) :=
  log_drain_insufficient_buffer
    { initState with last_debug_message := some sampleMessage } 1 3 sampleOutputs
    sampleMessage rfl (Or.inl (by decide)) (by decide) (by decide)

/-- C9: a valid, unfiltered insert with a registered callback invokes it
exactly once, synchronously, with exactly the tuple (source, type, id,
severity, resolved length, buffer, stored user context), leaving the state —
in particular the log slot — unchanged; with no callback registered, no
callback runs and the message becomes the sole occupant of the log slot,
overwriting any previous occupant. -/
theorem valid_insert_dispatch_or_store (s : DebugOutputState)
    (source ty id severity : Nat) (length : Int) (buf : List Nat)
    (hen : s.enabled = true)
    (hsev : is_valid_severity severity = true)
    (hty : is_valid_type ty = true)
    (hsrc : is_valid_source source = true)
    (hlen : (if length < 0 then (strlenBytes buf : Int) else length) ≤
      KHR_DEBUG_EMULATOR_MAX_DEBUG_MESSAGE_LENGTH)
    (hproc : should_message_get_processed s source ty id severity = true) :
    (∀ cb, s.callback = some cb →
      debug_message_insert_internal s source ty id severity length buf =
        (s, [⟨source, ty, id, severity,
          (if length < 0 then (strlenBytes buf : Int) else length), buf, s.user_param⟩])) ∧
    (s.callback = none →
      debug_message_insert_internal s source ty id severity length buf =
        ({ s with last_debug_message := some ⟨source, ty, id, severity, length, buf⟩ },
         [])) := by
  unfold debug_message_insert_internal
  rw [show (4 : Nat) = 3 + 1 from rfl,
    insert_internal_fuel_valid 3 s source ty id severity length buf hsev hty hsrc hlen]
  constructor
  · intro cb hcb
    simp [hen, hproc, hcb]
  · intro hcb
    simp [hen, hproc, hcb]

/-- C9 witness: with a registered callback the exact tuple is dispatched once
and the log slot stays empty; without one the message lands in the slot. -/
theorem valid_insert_dispatch_or_store_witness :
    (debug_message_insert_internal { initState with callback := some 7, user_param := 42 }
        DEBUG_SOURCE_APPLICATION DEBUG_TYPE_OTHER 1 DEBUG_SEVERITY_HIGH 2 [97, 98] =
      ({ initState with callback := some 7, user_param := 42 },
       [⟨DEBUG_SOURCE_APPLICATION, DEBUG_TYPE_OTHER, 1, DEBUG_SEVERITY_HIGH, 2,
         [97, 98], 42⟩])) ∧
    (debug_message_insert_internal initState
        DEBUG_SOURCE_APPLICATION DEBUG_TYPE_OTHER 1 DEBUG_SEVERITY_HIGH 2 [97, 98] =
      ({ initState with
          last_debug_message := some ⟨DEBUG_SOURCE_APPLICATION, DEBUG_TYPE_OTHER, 1,
            DEBUG_SEVERITY_HIGH, 2, [97, 98]⟩ }, [])) := by
  constructor
  · exact ((valid_insert_dispatch_or_store
      { initState with callback := some 7, user_param := 42 }
      DEBUG_SOURCE_APPLICATION DEBUG_TYPE_OTHER 1 DEBUG_SEVERITY_HIGH 2 [97, 98]
      rfl (by decide) (by decide) (by decide) (by decide) (by decide)).1 7 rfl)
  · exact ((valid_insert_dispatch_or_store initState
      DEBUG_SOURCE_APPLICATION DEBUG_TYPE_OTHER 1 DEBUG_SEVERITY_HIGH 2 [97, 98]
      rfl (by decide) (by decide) (by decide) (by decide) (by decide)).2 rfl)


/-- C10: with the master switch off, a control request still appends its rule
to the rule list (and still records the invalid-shape synthetic error exactly
when the rule's shape is invalid), and the per-call interceptor still records
a non-trivial native error code in lastError; in all of these disabled-state
calls the log slot, the callback registration and the user context are
untouched and no callback runs, and the internal insert itself is a complete
no-op. -/
theorem disabled_state_frame (s : DebugOutputState)
    (source ty severity : Nat) (count : Int) (idsBuf : List Nat) (enabled : Nat)
    (native : Nat) (name : List Nat)
    (source2 ty2 id2 severity2 : Nat) (length : Int) (buf : List Nat)
    (hen : s.enabled = false) :
    ((fallback_debug_message_control s source ty severity count idsBuf enabled).1.rules =
        s.rules ++ [⟨source, ty, severity, idsBuf.take count.toNat, enabled,
          s.debug_group_number⟩] ∧
      (fallback_debug_message_control s source ty severity count idsBuf
        enabled).1.last_debug_message = s.last_debug_message ∧
      (fallback_debug_message_control s source ty severity count idsBuf
        enabled).1.callback = s.callback ∧
      (fallback_debug_message_control s source ty severity count idsBuf
        enabled).1.user_param = s.user_param ∧
      (fallback_debug_message_control s source ty severity count idsBuf enabled).2 = [] ∧
      ((count != 0 &&
          (source == DONT_CARE || ty == DONT_CARE || severity != DONT_CARE)) = true →
        (fallback_debug_message_control s source ty severity count idsBuf
          enabled).1.last_error = INVALID_OPERATION) ∧
      ((count != 0 &&
          (source == DONT_CARE || ty == DONT_CARE || severity != DONT_CARE)) = false →
        (fallback_debug_message_control s source ty severity count idsBuf
          enabled).1.last_error = s.last_error)) ∧
    (native ≠ NO_ERROR →
      check_error s native name = ({ s with last_error := native }, [])) ∧
    debug_message_insert_internal s source2 ty2 id2 severity2 length buf = (s, []) := by
  refine ⟨?_, ?_, ?_⟩
  · unfold fallback_debug_message_control
    cases hcond : (count != 0 &&
        (source == DONT_CARE || ty == DONT_CARE || severity != DONT_CARE)) with
    | true =>
      rw [insert_api_error_disabled s INVALID_OPERATION (strBytes MSG_CONTROL_INVALID) hen]
      simp
    | false =>
      simp
  · intro hnz
    unfold check_error
    rw [if_pos (by simpa using hnz)]
    exact insert_api_error_disabled s native (get_error_string native name) hen
  · exact insert_internal_fuel_disabled 4 s source2 ty2 id2 severity2 length buf hen

/-- C10 witness: in a disabled state, an invalid-shape control request still
registers its rule and records INVALID_OPERATION; the interceptor records a
native INVALID_ENUM; the internal insert does nothing.  Log slot and callback
registration are untouched throughout. -/
theorem disabled_state_frame_witness :
    (fallback_debug_message_control { initState with enabled := false } DONT_CARE
        DEBUG_TYPE_OTHER DONT_CARE 1 [4] 1).1.rules =
      ({ initState with enabled := false } : DebugOutputState).rules ++
        [⟨DONT_CARE, DEBUG_TYPE_OTHER, DONT_CARE, [4], 1, 0⟩] ∧
    (fallback_debug_message_control { initState with enabled := false } DONT_CARE
        DEBUG_TYPE_OTHER DONT_CARE 1 [4] 1).1.last_debug_message = none ∧
    (fallback_debug_message_control { initState with enabled := false } DONT_CARE
        DEBUG_TYPE_OTHER DONT_CARE 1 [4] 1).1.callback = none ∧
    (fallback_debug_message_control { initState with enabled := false } DONT_CARE
        DEBUG_TYPE_OTHER DONT_CARE 1 [4] 1).1.last_error = INVALID_OPERATION ∧
    check_error { initState with enabled := false } INVALID_ENUM
        (strBytes SAMPLE_CALL_NAME) =
      ({ initState with
          enabled := false,
          last_error := INVALID_ENUM }, []) ∧
    debug_message_insert_internal { initState with enabled := false }
        DEBUG_SOURCE_APPLICATION DEBUG_TYPE_OTHER 1 DEBUG_SEVERITY_HIGH 2 [97, 98] =
      ({ initState with enabled := false }, []) := by
  obtain ⟨⟨a1, a2, a3, _, _, a6, _⟩, b, c⟩ :=
    disabled_state_frame { initState with enabled := false } DONT_CARE DEBUG_TYPE_OTHER
      DONT_CARE 1 [4] 1 INVALID_ENUM (strBytes SAMPLE_CALL_NAME)
      DEBUG_SOURCE_APPLICATION DEBUG_TYPE_OTHER 1 DEBUG_SEVERITY_HIGH 2 [97, 98] rfl
  exact ⟨a1, a2, a3, a6 (by decide), b (by decide), c⟩


end GlDebug
